import Mathlib

/-
Verification of the streaming URL-to-S3 transfer pipeline
(src/index.ts, src/download.ts, src/upload.ts).

Shallow embedding conventions:
  * GitHub-Actions inputs (core.getInput) return the empty string for an
    unset input; we model such fields as plain String with "" meaning
    "unset", mirroring the JavaScript falsiness checks in the source
    (e.g. `acl || undefined`, `!options.authUsername`).
  * The external world (axios HTTP responses, the S3 HeadObject and
    upload outcomes, the response body chunks, JSON.parse) is supplied
    as explicit oracle data; the embedded code is a pure function of the
    inputs and that oracle.
  * JavaScript exceptions are modelled with Except; `core.warning`
    diagnostics that the claims mention are returned as string lists;
    other logging is a no-op and not modelled.
  * Network side effects are recorded as an event trace so that claims
    of the form "no request is issued" can be stated.
-/

/-- Model of a parsed JSON value, the possible results of the external
`JSON.parse`. Numbers are modelled as integers (sufficient for every
concrete value appearing in this development). -/
inductive Json where
  | null : Json
  | bool (b : Bool) : Json
  | num (n : Int) : Json
  | str (s : String) : Json
  | arr (elems : List Json) : Json
  | obj (fields : List (String × Json)) : Json

/-- The whitespace characters removed by `String.prototype.trim` (the
ASCII ones; the exotic Unicode space code points never occur in this
development). -/
def isJsWhitespace (c : Char) : Bool :=
  c = ' ' ∨ c = '\t' ∨ c = '\n' ∨ c = '\r'

/-- `String.prototype.trim`: removes leading and trailing whitespace.
(Defined structurally on the character list so that concrete inputs
evaluate inside the kernel.) -/
def jsTrim (s : String) : String :=
  String.mk (((s.data.dropWhile isJsWhitespace).reverse.dropWhile isJsWhitespace).reverse)

/-- Splits a character list on a separator character, JavaScript
`String.prototype.split` semantics: `"".split(';') = [""]`,
`";".split(';') = ["", ""]`. -/
def splitOnChar (sep : Char) : List Char → List (List Char)
  | [] => [[]]
  | c :: rest =>
    if c = sep then [] :: splitOnChar sep rest
    else
      match splitOnChar sep rest with
      | [] => [[c]]
      | g :: gs => (c :: g) :: gs

/-- `s.split(sep)` for a one-character separator. -/
def jsSplit (s : String) (sep : Char) : List String :=
  (splitOnChar sep s.data).map String.mk

/-- `s.startsWith('\x7b')`: whether the first character is an opening
brace (the only `startsWith` needle used by the source). -/
def startsWithBrace (s : String) : Bool :=
  match s.data with
  | c :: _ => c = '\x7b'
  | [] => false

/-- `String.prototype.toUpperCase` (ASCII; sufficient for HTTP method
names). -/
def jsToUpper (s : String) : String :=
  String.mk (s.data.map Char.toUpper)

/-- Association-list update with JavaScript object-assignment semantics:
`result[key] = value` keeps the first-insertion position of an existing
key and updates its value, otherwise appends at the end. -/
def upsertA {α : Type} : List (String × α) → String → α → List (String × α)
  | [], k, v => [(k, v)]
  | (k', v') :: rest, k, v =>
    if k' = k then (k', v) :: rest else (k', v') :: upsertA rest k v

/-- Association-list lookup (models JavaScript property access / the
header object's `Authorization` entry). -/
def lookupA {α : Type} : List (String × α) → String → Option α
  | [], _ => Option.none
  | (k', v) :: rest, k => if k' = k then Option.some v else lookupA rest k

/-- Models `s.indexOf('=')` followed by the two `substring` calls in the
parser loop: splits a segment at the first `=`, returning the untrimmed
key and value parts, or `none` when the segment has no `=`. -/
def splitFirstEq (s : String) : Option (String × String) :=
  match s.data.span (fun c => c ≠ '=') with
  | (_, []) => Option.none
  | (pre, _ :: post) => Option.some (String.mk pre, String.mk post)

/-- The semicolon-separated `key=value` branch of `parseKeyValuePairs`
(src/download.ts lines 67-89, identical in src/upload.ts lines 51-73):
split on `;`, trim each segment, skip empty segments, skip (with a
warning) a segment with no `=`, trim key and value, skip an empty key,
and return the record, `none` when it would be empty. The second
component collects the `core.warning` messages. -/
def delimParse (trimmed : String) (name : String) :
    Option (List (String × String)) × List String :=
  let step := fun (acc : List (String × String) × List String) (pair : String) =>
    let trimmedPair := jsTrim pair
    if trimmedPair = "" then acc
    else
      match splitFirstEq trimmedPair with
      | Option.none =>
        (acc.1, acc.2 ++ ["Skipping invalid " ++ name ++ " pair: " ++ trimmedPair])
      | Option.some (k0, v0) =>
        let key := jsTrim k0
        let value := jsTrim v0
        if key ≠ "" then (upsertA acc.1 key value, acc.2) else acc
  let res := (jsSplit trimmed ';').foldl step ([], [])
  (if res.1.length > 0 then Option.some res.1 else Option.none, res.2)

/-- Injects the string-valued record produced by the delimiter branch
into the JSON-valued record type that the JSON branch can produce (the
delimiter branch of the JavaScript code builds plain string values). -/
def strRecord : Option (List (String × String)) → Option (List (String × Json)) :=
  Option.map (List.map (fun p => (p.1, Json.str p.2)))

/-- `parseKeyValuePairs` of src/download.ts (lines 51-90). `jp` is the
oracle for the external `JSON.parse`: `none` models a parse exception
(caught, warned about, and followed by fall-through to the delimiter
format). The declared TypeScript return type is `Record<string,string>`,
but the JSON branch returns `JSON.parse(trimmed)` unchanged, so the
faithful result type is a record of JSON values; a string that starts
with a brace can only parse to a JSON object, so the non-object oracle
arm (returning the parsed value unchanged, here collapsed to the empty
record) is unreachable for a genuine `JSON.parse`. -/
def parseKeyValuePairs (jp : String → Option Json) (input : Option String)
    (name : String) : Option (List (String × Json)) × List String :=
  match input with
  | Option.none => (Option.none, [])
  | Option.some s =>
    if jsTrim s = "" then (Option.none, [])
    else
      let trimmed := jsTrim s
      if startsWithBrace trimmed then
        match jp trimmed with
        | Option.some (Json.obj fields) => (Option.some fields, [])
        | Option.some _ => (Option.some [], [])
        | Option.none =>
          let r := delimParse trimmed name
          (strRecord r.1, ("Failed to parse " ++ name ++ " as JSON") :: r.2)
      else
        let r := delimParse trimmed name
        (strRecord r.1, r.2)

/-- `parseKeyValuePairs` of src/upload.ts (lines 30-74): identical to the
download.ts variant except that the JSON branch rejects a parsed value
that is not an object (or is an array) with a warning and `undefined`
instead of returning it. -/
def parseKeyValuePairsUpload (jp : String → Option Json) (input : Option String)
    (name : String) : Option (List (String × Json)) × List String :=
  match input with
  | Option.none => (Option.none, [])
  | Option.some s =>
    if jsTrim s = "" then (Option.none, [])
    else
      let trimmed := jsTrim s
      if startsWithBrace trimmed then
        match jp trimmed with
        | Option.some (Json.obj fields) => (Option.some fields, [])
        | Option.some _ => (Option.none, [name ++ " must be a JSON object"])
        | Option.none =>
          let r := delimParse trimmed name
          (strRecord r.1, ("Failed to parse " ++ name ++ " as JSON") :: r.2)
      else
        let r := delimParse trimmed name
        (strRecord r.1, r.2)

/-- Modelled from the spec (section 4.1): the delimiter-format contract
of the Key-Value Parser, written from the specification's words — input
split on `;`, each segment trimmed, empty segments skipped, each
segment split on the first `=`, a segment with no `=` skipped with a
warning, key trimmed and required non-empty, value trimmed, result
absent when the mapping would be empty, and absent for empty,
whitespace-only or missing input. Used only for comparison with the
source-derived `parseKeyValuePairs`. -/
def specParseDelim (input : Option String) (name : String) :
    Option (List (String × String)) × List String :=
  match input with
  | Option.none => (Option.none, [])
  | Option.some s =>
    if jsTrim s = "" then (Option.none, [])
    else
      let segs := jsSplit (jsTrim s) ';'
      let step := fun (acc : List (String × String) × List String) (seg : String) =>
        let t := jsTrim seg
        if t = "" then acc
        else
          match splitFirstEq t with
          | Option.none =>
            (acc.1, acc.2 ++ ["Skipping invalid " ++ name ++ " pair: " ++ t])
          | Option.some (k0, v0) =>
            if jsTrim k0 ≠ "" then (upsertA acc.1 (jsTrim k0) (jsTrim v0), acc.2) else acc
      let res := segs.foldl step ([], [])
      (if res.1.length > 0 then Option.some res.1 else Option.none, res.2)

/-- `ByteCountingStream` (src/download.ts lines 21-37): a pass-through
stream whose single mutable field accumulates the byte length of every
chunk observed. Bytes are modelled as natural numbers; only the chunk
lengths matter. -/
structure ByteCountingStream where
  bytesTransferred : Nat
deriving DecidableEq, Repr

/-- A freshly constructed stream: `bytesTransferred = 0`. -/
def ByteCountingStream.new : ByteCountingStream := { bytesTransferred := 0 }

/-- The `data` event handler: adds the chunk's length to the counter. -/
def ByteCountingStream.onData (s : ByteCountingStream) (chunk : List Nat) :
    ByteCountingStream :=
  { bytesTransferred := s.bytesTransferred + chunk.length }

/-- Drains a sequence of chunks through the stream, firing the `data`
handler once per chunk. -/
def ByteCountingStream.feed (s : ByteCountingStream) (chunks : List (List Nat)) :
    ByteCountingStream :=
  chunks.foldl ByteCountingStream.onData s

/-- `getBytesTransferred` (src/download.ts lines 34-36). -/
def ByteCountingStream.getBytesTransferred (s : ByteCountingStream) : Nat :=
  s.bytesTransferred

/-- The base64 alphabet used by `Buffer.toString('base64')`. -/
def base64Alphabet : String :=
  "ABCDEFGHIJKLMNOPQRSTUVWXYZabcdefghijklmnopqrstuvwxyz0123456789+/"

/-- The base64 digit for a 6-bit value. -/
def b64Char (n : Nat) : Char := base64Alphabet.data.getD n '='

/-- Base64-encodes a byte list (standard RFC 4648 padding), three input
bytes to four output characters. -/
def base64Go : List Nat → List Char
  | [] => []
  | [a] => [b64Char (a / 4), b64Char (a % 4 * 16), '=', '=']
  | [a, b] => [b64Char (a / 4), b64Char (a % 4 * 16 + b / 16), b64Char (b % 16 * 4), '=']
  | a :: b :: c :: rest =>
    b64Char (a / 4) :: b64Char (a % 4 * 16 + b / 16) ::
      b64Char (b % 16 * 4 + c / 64) :: b64Char (c % 64) :: base64Go rest

/-- Models `Buffer.from(s).toString('base64')`: UTF-8 bytes of the
string, base64-encoded. -/
def base64Encode (s : String) : String :=
  String.mk (base64Go (s.toUTF8.toList.map UInt8.toNat))

/-- `DownloadOptions` (src/download.ts lines 5-16) as constructed by the
orchestrator: auth fields are plain strings with "" meaning unset
(mirroring `core.getInput` and the `!options.authUsername` falsiness
checks), headers are the parsed header record. -/
structure DlOptions where
  url : String
  method : String
  headers : List (String × Json)
  data : Option String
  timeout : Nat
  enableRetry : Bool
  authType : String
  authUsername : String
  authPassword : String
  authToken : String

/-- `generateAuthHeader` (src/download.ts lines 103-124): no header for
absent/none/unknown auth type; for `basic`, both username and password
are required (JavaScript-falsy "" counts as missing) and the header is
`Basic` plus the base64 of `user:pass`; for `bearer`, a token is
required and the header is `Bearer` plus the token. Errors are the
thrown `Error` messages. -/
def generateAuthHeader (authType authUsername authPassword authToken : String) :
    Except String (Option String) :=
  if authType = "" ∨ authType = "none" then Except.ok Option.none
  else if authType = "basic" then
    if authUsername = "" ∨ authPassword = "" then
      Except.error "auth-username and auth-password are required for basic authentication"
    else
      Except.ok (Option.some ("Basic " ++ base64Encode (authUsername ++ ":" ++ authPassword)))
  else if authType = "bearer" then
    if authToken = "" then
      Except.error "auth-token is required for bearer authentication"
    else Except.ok (Option.some ("Bearer " ++ authToken))
  else Except.ok Option.none

/-- The metadata of one HTTP response delivered by the network oracle.
`contentLength` is the parsed `content-length` header
(`parseInt(headers['content-length'] || '0', 10)` with the `|| 0`
fallback): `none` models an absent or non-numeric header, which the
source collapses to the 0 sentinel. -/
structure HttpResponse where
  status : Nat
  contentLength : Option Nat
  contentType : Option String
  contentEncoding : Option String
  statusText : String

/-- What the network does on one attempt: either no response at all
(axios rejects with no `error.response`: DNS failure, timeout,
connection reset) or a response with the given metadata (axios resolves
when the status is below 600 per the `validateStatus` option, and
rejects carrying the response status otherwise). -/
inductive AttemptOutcome where
  | netFail : AttemptOutcome
  | resp (r : HttpResponse) : AttemptOutcome

/-- The failure taxonomy of the downloader as thrown by
`downloadAsStream`: a configuration error from `generateAuthHeader`
(propagates before any request), a network-level error (axios rejection
or retry exhaustion), or an HTTP status error (`status >= 400` after a
response was obtained). -/
inductive DlError where
  | config (msg : String) : DlError
  | network (msg : String) : DlError
  | httpStatus (status : Nat) (statusText : String) : DlError
deriving DecidableEq, Repr

/-- `DownloadResult` (src/download.ts lines 39-45) minus the live stream
handle (the stream's byte count is read from the relay after draining). -/
structure DlOk where
  statusCode : Nat
  contentLengthHeader : Nat
  contentType : Option String
  contentEncoding : Option String
deriving DecidableEq, Repr

/-- The HTTP status codes the retry loop is willing to retry
(src/download.ts line 171). -/
def retryStatusCodes : List Nat := [408, 429, 500, 502, 503, 504]

/-- The retry loop of `downloadAsStream` (src/download.ts lines
176-213), one recursive step per loop iteration. `fuel` is the number
of remaining iterations (`maxRetries + 1 - attempt`), `made` counts
requests actually issued, `delays` records the backoff sleeps
(`1000 * 2 ^ (attempt - 1)` ms before every attempt after the first).
An axios resolution (status < 600) breaks the loop; an axios rejection
is retried only when retries are enabled, attempts remain, and the
error's status (if any) is in `retryStatusCodes` — otherwise the wrapped
error is thrown. Fuel exhaustion models falling off the loop with no
response (`throw lastError`, src/download.ts lines 215-217). -/
def attemptLoop (world : Nat → AttemptOutcome) (enableRetry : Bool) (maxRetries : Nat) :
    Nat → Nat → List Nat → Nat → Except DlError HttpResponse × Nat × List Nat
  | 0, _, delays, made =>
    (Except.error (DlError.network "HTTP request failed after retries"), made, delays)
  | fuel + 1, attempt, delays, made =>
    let delays := if attempt > 0 then delays ++ [1000 * 2 ^ (attempt - 1)] else delays
    match world attempt with
    | AttemptOutcome.resp r =>
      if r.status < 600 then (Except.ok r, made + 1, delays)
      else
        if enableRetry ∧ attempt < maxRetries ∧ r.status ∈ retryStatusCodes then
          attemptLoop world enableRetry maxRetries fuel (attempt + 1) delays (made + 1)
        else
          (Except.error (DlError.network ("HTTP request failed (Status: " ++ toString r.status ++ ")")),
            made + 1, delays)
    | AttemptOutcome.netFail =>
      if enableRetry ∧ attempt < maxRetries then
        attemptLoop world enableRetry maxRetries fuel (attempt + 1) delays (made + 1)
      else
        (Except.error (DlError.network "HTTP request failed"), made + 1, delays)

/-- The trace of one `downloadAsStream` call: its result, how many HTTP
requests were actually issued, the backoff delays slept, the final
header record sent with the request, and whether a request body was
attached. -/
structure DlTrace where
  result : Except DlError DlOk
  attemptsMade : Nat
  delays : List Nat
  finalHeaders : List (String × Json)
  bodySent : Bool

/-- `downloadAsStream` (src/download.ts lines 130-261): generate the
auth header (throwing before any request on missing credentials), merge
it into the caller headers after the spread (overwriting a caller
`Authorization` entry), attach the body only for POST/PUT/PATCH, run
the retry loop with `maxRetries = enableRetry ? 3 : 0`, then throw on
`status >= 400` and otherwise return the response metadata with the
content-length sentinel `header.getD 0`. -/
def downloadAsStream (opts : DlOptions) (world : Nat → AttemptOutcome) : DlTrace :=
  match generateAuthHeader opts.authType opts.authUsername opts.authPassword opts.authToken with
  | Except.error e =>
    { result := Except.error (DlError.config e), attemptsMade := 0, delays := [],
      finalHeaders := opts.headers, bodySent := false }
  | Except.ok authHeader =>
    let headers :=
      match authHeader with
      | Option.some h => upsertA opts.headers "Authorization" (Json.str h)
      | Option.none => opts.headers
    let bodySent :=
      opts.data.isSome ∧ jsToUpper opts.method ∈ (["POST", "PUT", "PATCH"] : List String)
    let maxRetries := if opts.enableRetry then 3 else 0
    let loopOut := attemptLoop world opts.enableRetry maxRetries (maxRetries + 1) 0 [] 0
    match loopOut.1 with
    | Except.error e =>
      { result := Except.error e, attemptsMade := loopOut.2.1, delays := loopOut.2.2,
        finalHeaders := headers, bodySent := decide bodySent }
    | Except.ok r =>
      if r.status ≥ 400 then
        { result := Except.error (DlError.httpStatus r.status r.statusText),
          attemptsMade := loopOut.2.1, delays := loopOut.2.2,
          finalHeaders := headers, bodySent := decide bodySent }
      else
        { result := Except.ok
            { statusCode := r.status, contentLengthHeader := r.contentLength.getD 0,
              contentType := r.contentType, contentEncoding := r.contentEncoding },
          attemptsMade := loopOut.2.1, delays := loopOut.2.2,
          finalHeaders := headers, bodySent := decide bodySent }

/-- Network side effects, recorded in order: an S3 `HeadObject` call, an
outbound HTTP request by the downloader, an S3 upload call. -/
inductive Event where
  | headObject : Event
  | httpRequest : Event
  | s3Upload : Event
deriving DecidableEq, Repr

/-- The store's answer to one `HeadObject` call: the object exists, the
store signalled not-found (error name `NotFound` or HTTP 404), or some
other store failure (permission denial, network failure, ...). -/
inductive HeadOutcome where
  | found : HeadOutcome
  | notFound : HeadOutcome
  | failure (msg : String) : HeadOutcome
deriving DecidableEq, Repr

/-- `objectExists` (src/index.ts lines 10-24, duplicated in
src/upload.ts lines 147-161): a successful head means `true`, a
not-found signal means `false`, and any other store error is re-thrown. -/
def objectExists (head : HeadOutcome) : Except String Bool :=
  match head with
  | HeadOutcome.found => Except.ok true
  | HeadOutcome.notFound => Except.ok false
  | HeadOutcome.failure msg => Except.error msg

/-- The seven canned ACL policies accepted by `validateAcl`
(src/upload.ts lines 98-106). -/
def validAcls : List String :=
  ["private", "public-read", "public-read-write", "authenticated-read",
   "aws-exec-read", "bucket-owner-read", "bucket-owner-full-control"]

/-- `validateAcl` (src/upload.ts lines 95-115): absent ACL passes
through; a value outside the fixed list throws. -/
def validateAcl (acl : Option String) : Except String (Option String) :=
  match acl with
  | Option.none => Except.ok Option.none
  | Option.some a =>
    if a ∈ validAcls then Except.ok (Option.some a)
    else Except.error ("Invalid ACL value: " ++ a)

/-- The eight storage classes accepted by `validateStorageClass`
(src/upload.ts lines 123-132). -/
def validStorageClasses : List String :=
  ["STANDARD", "REDUCED_REDUNDANCY", "STANDARD_IA", "ONEZONE_IA",
   "INTELLIGENT_TIERING", "GLACIER", "DEEP_ARCHIVE", "GLACIER_IR"]

/-- `validateStorageClass` (src/upload.ts lines 120-141): absent class
passes through; a value outside the fixed list throws. -/
def validateStorageClass (storageClass : Option String) : Except String (Option String) :=
  match storageClass with
  | Option.none => Except.ok Option.none
  | Option.some c =>
    if c ∈ validStorageClasses then Except.ok (Option.some c)
    else Except.error ("Invalid storage class: " ++ c)

/-- `UploadOptions` (src/upload.ts lines 6-18) minus the live stream
handle (the stream is drained by the store write; its byte count is
read afterwards from the relay). -/
structure UploadOptions where
  bucket : String
  key : String
  contentLengthHint : Nat
  contentType : Option String
  bucketOwner : Option String
  acl : Option String
  storageClass : Option String
  cacheControl : Option String
  metadata : Option (List (String × Json))
  tags : Option (List (String × Json))

/-- `UploadResult` (src/upload.ts lines 20-24). -/
structure UploadResult where
  etag : String
  s3Url : String
  objectExisted : Bool
deriving DecidableEq, Repr

/-- `uploadStreamToS3` (src/upload.ts lines 167-283): validates the ACL
and storage class before any store call; with `ifNotExists` set (never
set by the orchestrator, which passes the default `false`) heads the
object first and skips the write with an empty etag when it exists;
otherwise performs the store write. `storeResponse` is the store
oracle: a failure message, or the `ETag` of the completed upload
(`none` when the store reported no ETag — the source falls back to the
empty string via `response.ETag || ''`). The second component is the
list of store calls made. -/
def uploadStreamToS3 (opts : UploadOptions) (ifNotExists : Bool)
    (head : HeadOutcome) (storeResponse : Except String (Option String)) :
    Except String UploadResult × List Event :=
  match validateAcl opts.acl with
  | Except.error e => (Except.error e, [])
  | Except.ok _ =>
    match validateStorageClass opts.storageClass with
    | Except.error e => (Except.error e, [])
    | Except.ok _ =>
      if ifNotExists then
        match objectExists head with
        | Except.error e => (Except.error e, [Event.headObject])
        | Except.ok true =>
          (Except.ok { etag := "", s3Url := "s3://" ++ opts.bucket ++ "/" ++ opts.key,
                       objectExisted := true }, [Event.headObject])
        | Except.ok false =>
          match storeResponse with
          | Except.error e =>
            (Except.error ("Failed to upload to S3: " ++ e), [Event.headObject, Event.s3Upload])
          | Except.ok etagOpt =>
            (Except.ok { etag := etagOpt.getD "",
                         s3Url := "s3://" ++ opts.bucket ++ "/" ++ opts.key,
                         objectExisted := false }, [Event.headObject, Event.s3Upload])
      else
        match storeResponse with
        | Except.error e =>
          (Except.error ("Failed to upload to S3: " ++ e), [Event.s3Upload])
        | Except.ok etagOpt =>
          (Except.ok { etag := etagOpt.getD "",
                       s3Url := "s3://" ++ opts.bucket ++ "/" ++ opts.key,
                       objectExisted := false }, [Event.s3Upload])

/-- The action's inputs as read by `core.getInput` (src/index.ts lines
32-56): strings are the raw input values ("" when unset); the two
boolean flags model the `=== 'true'` comparisons; `timeout` models the
parsed integer. -/
structure Inputs where
  url : String
  s3Bucket : String
  s3Key : String
  method : String
  headersInput : String
  postData : String
  timeout : Nat
  enableRetry : Bool
  authType : String
  authUsername : String
  authPassword : String
  authToken : String
  bucketOwner : String
  acl : String
  storageClass : String
  contentTypeOverride : String
  cacheControl : String
  metadataInput : String
  tagsInput : String
  ifNotExists : Bool

/-- The external environment of one invocation: the `JSON.parse` oracle,
the `HeadObject` outcome, the network's per-attempt behaviour, the
store's upload outcome, and the chunks the response body delivers
through the byte-counting relay. -/
structure World where
  jsonParse : String → Option Json
  head : HeadOutcome
  attempts : Nat → AttemptOutcome
  store : Except String (Option String)
  bodyChunks : List (List Nat)

/-- The observable trace of one invocation of the action: the
`core.setOutput` pairs in order, the network events in order, the
emitted non-fatal warnings, and the `core.setFailed` message if any. -/
structure RunTrace where
  outputs : List (String × String)
  events : List Event
  warnings : List String
  failed : Option String

/-- Models `x || undefined` on a `core.getInput` string: the empty
string becomes `none`. -/
def strOpt (s : String) : Option String :=
  if s = "" then Option.none else Option.some s

/-- The default-applying input reads of src/index.ts lines 38 and 51:
`core.getInput('method') || 'GET'` and
`core.getInput('storage-class') || 'STANDARD'`. -/
def effMethod (inp : Inputs) : String :=
  if inp.method = "" then "GET" else inp.method

/-- The `|| 'STANDARD'` default for the storage-class input. -/
def effStorageClass (inp : Inputs) : String :=
  if inp.storageClass = "" then "STANDARD" else inp.storageClass

/-- The header record passed to the downloader: `parseHeaders` of the
raw headers input (src/index.ts line 59), empty record when absent. -/
def runHeaders (inp : Inputs) (w : World) : List (String × Json) :=
  ((parseKeyValuePairs w.jsonParse (Option.some inp.headersInput) "headers").1).getD []

/-- The `DownloadOptions` object built at src/index.ts lines 104-115:
the method is upper-cased, the post data is attached, the auth fields
pass through unchanged. -/
def mkDlOptions (inp : Inputs) (w : World) : DlOptions :=
  { url := inp.url, method := jsToUpper (effMethod inp), headers := runHeaders inp w,
    data := strOpt inp.postData, timeout := inp.timeout, enableRetry := inp.enableRetry,
    authType := inp.authType, authUsername := inp.authUsername,
    authPassword := inp.authPassword, authToken := inp.authToken }

/-- The downloader call made by the orchestrator. -/
def runDl (inp : Inputs) (w : World) : DlTrace :=
  downloadAsStream (mkDlOptions inp w) w.attempts

/-- The `UploadOptions` object built at src/index.ts lines 124-136: the
content type is the caller override when non-empty, else the detected
one; `acl`, `bucketOwner` and `cacheControl` go through `|| undefined`;
the storage class always carries its `STANDARD` default. -/
def mkUploadOptions (inp : Inputs) (w : World) (ok : DlOk) : UploadOptions :=
  { bucket := inp.s3Bucket, key := inp.s3Key,
    contentLengthHint := ok.contentLengthHeader,
    contentType := if inp.contentTypeOverride = "" then ok.contentType
                   else Option.some inp.contentTypeOverride,
    bucketOwner := strOpt inp.bucketOwner, acl := strOpt inp.acl,
    storageClass := Option.some (effStorageClass inp),
    cacheControl := strOpt inp.cacheControl,
    metadata := (parseKeyValuePairsUpload w.jsonParse (Option.some inp.metadataInput) "metadata").1,
    tags := (parseKeyValuePairsUpload w.jsonParse (Option.some inp.tagsInput) "tags").1 }

/-- The human-readable message of a downloader error as seen by the
orchestrator's catch block. -/
def dlErrorMessage : DlError → String
  | DlError.config msg => msg
  | DlError.network msg => msg
  | DlError.httpStatus status statusText =>
    "HTTP request failed with status " ++ toString status ++ ": " ++ statusText

/-- The outputs set on the skip path (src/index.ts lines 77-81),
verbatim literals in source order. -/
def skipOutputs (inp : Inputs) : List (String × String) :=
  [("status-code", "0"), ("content-length", "0"),
   ("s3-url", "s3://" ++ inp.s3Bucket ++ "/" ++ inp.s3Key),
   ("s3-etag", ""), ("object-existed", "true")]

/-- The download-then-upload leg of `run` (src/index.ts lines 101-176),
entered after the optional existence check; `ev0` is the event trace
accumulated so far. On download failure or upload failure the catch
block sets only the failure message; on success the outputs are set
from the upload result and the relay's final byte count, with a
non-fatal warning when a non-zero header-declared length differs from
that count. -/
def runTransfer (inp : Inputs) (w : World) (ev0 : List Event) : RunTrace :=
  let dl := runDl inp w
  let ev1 := ev0 ++ List.replicate dl.attemptsMade Event.httpRequest
  match dl.result with
  | Except.error e =>
    { outputs := [], events := ev1, warnings := [],
      failed := Option.some ("Action failed: " ++ dlErrorMessage e) }
  | Except.ok ok =>
    let up := uploadStreamToS3 (mkUploadOptions inp w ok) false w.head w.store
    let ev2 := ev1 ++ up.2
    match up.1 with
    | Except.error e =>
      { outputs := [], events := ev2, warnings := [],
        failed := Option.some ("Action failed: " ++ e) }
    | Except.ok upOk =>
      let actual := (ByteCountingStream.feed ByteCountingStream.new w.bodyChunks).getBytesTransferred
      let warns :=
        if ok.contentLengthHeader > 0 ∧ actual ≠ ok.contentLengthHeader then
          ["Bytes transferred (" ++ toString actual ++
           ") differs from Content-Length header (" ++ toString ok.contentLengthHeader ++ ")"]
        else []
      { outputs := [("status-code", toString ok.statusCode),
                    ("content-length", toString actual),
                    ("s3-url", upOk.s3Url), ("s3-etag", upOk.etag),
                    ("object-existed", "false")],
        events := ev2, warnings := warns, failed := Option.none }

/-- `run` (src/index.ts lines 30-270): with `if-not-exists` set, head
the object first — a head failure is caught as a terminal failure, an
existing object short-circuits to the skip outputs with no download —
and otherwise (or when the flag is unset) run the transfer leg. -/
def run (inp : Inputs) (w : World) : RunTrace :=
  if inp.ifNotExists then
    match objectExists w.head with
    | Except.error e =>
      { outputs := [], events := [Event.headObject], warnings := [],
        failed := Option.some ("Action failed: " ++ e) }
    | Except.ok true =>
      { outputs := skipOutputs inp, events := [Event.headObject], warnings := [],
        failed := Option.none }
    | Except.ok false => runTransfer inp w [Event.headObject]
  else runTransfer inp w []

/-- Draining chunks adds exactly the sum of the chunk lengths to the
counter. -/
theorem ByteCountingStream.feed_bytesTransferred (s : ByteCountingStream)
    (chunks : List (List Nat)) :
    (ByteCountingStream.feed s chunks).bytesTransferred
      = s.bytesTransferred + (chunks.map List.length).sum := by
  induction chunks generalizing s with
  | nil => simp [ByteCountingStream.feed]
  | cons c cs ih =>
    have h : ByteCountingStream.feed s (c :: cs)
        = ByteCountingStream.feed (ByteCountingStream.onData s c) cs := rfl
    rw [h, ih]
    simp [ByteCountingStream.onData]
    omega

/-- C4: the byte-counting relay's final count after draining any finite
sequence of chunks equals exactly the total number of bytes pushed
through it (the length of the concatenation), is independent of chunk
boundaries (1-byte chunks and one whole chunk agree), and the counter
is monotonically non-decreasing (each chunk observation only adds). -/
theorem byteCounting_exact_and_monotone :
    (∀ chunks : List (List Nat),
      (ByteCountingStream.feed ByteCountingStream.new chunks).getBytesTransferred
        = chunks.flatten.length)
    ∧ (∀ bytes : List Nat,
      (ByteCountingStream.feed ByteCountingStream.new
          (bytes.map (fun b => [b]))).getBytesTransferred
        = (ByteCountingStream.feed ByteCountingStream.new [bytes]).getBytesTransferred)
    ∧ (∀ (s : ByteCountingStream) (chunks : List (List Nat)),
      s.bytesTransferred ≤ (ByteCountingStream.feed s chunks).bytesTransferred) := by
  have key : ∀ chunks : List (List Nat),
      (ByteCountingStream.feed ByteCountingStream.new chunks).getBytesTransferred
        = chunks.flatten.length := by
    intro chunks
    rw [ByteCountingStream.getBytesTransferred, ByteCountingStream.feed_bytesTransferred,
      List.length_flatten]
    simp [ByteCountingStream.new]
  refine ⟨key, fun bytes => ?_, fun s chunks => ?_⟩
  · have hsing : (bytes.map (fun b => [b])).flatten = bytes := by
      induction bytes with
      | nil => rfl
      | cons b bs ih => simp [ih]
    rw [key, key, hsing]
    simp
  · rw [ByteCountingStream.feed_bytesTransferred]
    exact Nat.le_add_right _ _

/-- A 503 response as delivered by the network oracle. -/
def resp503 : HttpResponse :=
  { status := 503, contentLength := Option.none, contentType := Option.none,
    contentEncoding := Option.none, statusText := "Service Unavailable" }

/-- A successful 200 response with a 3-byte declared length. -/
def resp200 : HttpResponse :=
  { status := 200, contentLength := Option.some 3,
    contentType := Option.some "text/plain",
    contentEncoding := Option.none, statusText := "OK" }

/-- The endpoint of the claimed retry scenario: responds 503 on the
first two attempts and 200 afterwards. -/
def c1Attempts : Nat → AttemptOutcome := fun n =>
  if n < 2 then AttemptOutcome.resp resp503 else AttemptOutcome.resp resp200

/-- An endpoint that fails at the network level (no response at all)
twice and then succeeds with 200. -/
def c1NetAttempts : Nat → AttemptOutcome := fun n =>
  if n < 2 then AttemptOutcome.netFail else AttemptOutcome.resp resp200

/-- Download options with retries enabled and no authentication. -/
def c1Opts : DlOptions :=
  { url := "https://example.com/file", method := "GET", headers := [],
    data := Option.none, timeout := 900000, enableRetry := true,
    authType := "", authUsername := "", authPassword := "", authToken := "" }

/-- C1: with retries enabled, against the endpoint that responds 503
twice and then succeeds, the downloader issues exactly ONE request,
sleeps no backoff delay, and fails with an HTTP-status error — not the
claimed three attempts with 1000 ms and 2000 ms delays ending in
success. The `validateStatus < 600` option makes every sub-600 response
(including 503) resolve, so the retry loop's transient-status list is
never consulted; only a pure network failure (no response at all) is
retried, as the second half shows: two network failures followed by a
200 do produce three attempts with 1000 ms and 2000 ms backoff and a
successful result. -/
theorem retry_503_endpoint_single_attempt :
    (downloadAsStream c1Opts c1Attempts).attemptsMade = 1
    ∧ (downloadAsStream c1Opts c1Attempts).delays = []
    ∧ (downloadAsStream c1Opts c1Attempts).result
        = Except.error (DlError.httpStatus 503 "Service Unavailable")
    ∧ (downloadAsStream c1Opts c1NetAttempts).attemptsMade = 3
    ∧ (downloadAsStream c1Opts c1NetAttempts).delays = [1000, 2000]
    ∧ (downloadAsStream c1Opts c1NetAttempts).result
        = Except.ok { statusCode := 200, contentLengthHeader := 3,
                      contentType := Option.some "text/plain",
                      contentEncoding := Option.none } :=
  ⟨rfl, rfl, rfl, rfl, rfl, rfl⟩

/-- The concrete JSON-object input of the C7 counterexample: an object
with one numeric value. -/
def c7Input : String := "\x7b\"a\":1\x7d"

/-- The `JSON.parse` oracle on the C7 input: parsing `\x7b"a":1\x7d`
yields the object with the single field `a` holding the number 1 (what
the real `JSON.parse` returns on this string). -/
def c7JsonParse : String → Option Json := fun s =>
  if s = c7Input then Option.some (Json.obj [("a", Json.num 1)]) else Option.none

/-- C7 counterexample: on the valid JSON-object input `\x7b"a":1\x7d`
the parser returns the field value as the number 1, not the string "1";
the claimed result (the object's pairs with values coerced to strings)
differs from what the code returns. The JSON branch is
`return JSON.parse(trimmed)` — no coercion is performed. -/
theorem json_values_not_coerced :
    (parseKeyValuePairs c7JsonParse (Option.some c7Input) "metadata").1
      = Option.some [("a", Json.num 1)]
    ∧ (parseKeyValuePairs c7JsonParse (Option.some c7Input) "metadata").1
      ≠ strRecord (Option.some [("a", "1")]) := by
  refine ⟨rfl, ?_⟩
  intro h
  rw [show (parseKeyValuePairs c7JsonParse (Option.some c7Input) "metadata").1
      = Option.some [("a", Json.num 1)] from rfl] at h
  simp [strRecord] at h

/-- C7 (amended): for every input string whose trimmed form starts with
a brace and parses as a JSON object, both parser variants return that
object's own key/value pairs verbatim — string values stay strings, but
non-string values are returned as parsed, not coerced to strings. -/
theorem json_object_pairs_verbatim (jp : String → Option Json) (name s : String)
    (fields : List (String × Json))
    (hb : startsWithBrace (jsTrim s) = true)
    (hj : jp (jsTrim s) = Option.some (Json.obj fields)) :
    (parseKeyValuePairs jp (Option.some s) name).1 = Option.some fields
    ∧ (parseKeyValuePairsUpload jp (Option.some s) name).1 = Option.some fields := by
  have hne : ¬ jsTrim s = "" := by
    intro he
    rw [he] at hb
    exact absurd hb (by decide)
  constructor
  · simp [parseKeyValuePairs, hne, hb, hj]
  · simp [parseKeyValuePairsUpload, hne, hb, hj]

/-- C7 witness: the amended theorem applied at the concrete input. -/
theorem json_object_pairs_verbatim_witness :
    (parseKeyValuePairs c7JsonParse (Option.some c7Input) "metadata").1
      = Option.some [("a", Json.num 1)]
    ∧ (parseKeyValuePairsUpload c7JsonParse (Option.some c7Input) "metadata").1
      = Option.some [("a", Json.num 1)] :=
  json_object_pairs_verbatim c7JsonParse "metadata" c7Input [("a", Json.num 1)]
    (by decide) (by rfl)

/-- On a non-empty trimmed input the code's delimiter branch computes
exactly the spec's delimiter contract. -/
theorem delimParse_eq_spec (s name : String) (hne : ¬ jsTrim s = "") :
    delimParse (jsTrim s) name = specParseDelim (Option.some s) name := by
  unfold delimParse specParseDelim
  simp [hne]

/-- The spec's delimiter contract never returns a present-but-empty
mapping. -/
theorem specParseDelim_ne_some_nil (input : Option String) (name : String) :
    (specParseDelim input name).1 ≠ Option.some [] := by
  intro h
  unfold specParseDelim at h
  cases input with
  | none => simp at h
  | some s =>
    by_cases he : jsTrim s = ""
    · simp [he] at h
    · simp only [he, if_false] at h
      split at h
      · rename_i hl
        rw [Option.some.injEq] at h
        rw [h] at hl
        simp at hl
      · exact Option.noConfusion h

/-- C8: for every input string in delimiter format (trimmed form not
starting with a brace) the parser returns exactly what the spec's
delimiter contract prescribes — split on `;`, segments trimmed, empty
segments skipped, split on the first `=`, no-`=` segments skipped with
a warning, empty keys skipped, values trimmed — and returns absent for
empty, whitespace-only and missing input, and never a present-but-empty
mapping. (The embedding is a total function: no input raises an
error.) -/
theorem parser_delimiter_contract (jp : String → Option Json) (name : String) :
    (∀ s : String, startsWithBrace (jsTrim s) = false →
      parseKeyValuePairs jp (Option.some s) name
        = (strRecord (specParseDelim (Option.some s) name).1,
           (specParseDelim (Option.some s) name).2))
    ∧ parseKeyValuePairs jp Option.none name = (Option.none, [])
    ∧ parseKeyValuePairs jp (Option.some "") name = (Option.none, [])
    ∧ parseKeyValuePairs jp (Option.some "   ") name = (Option.none, [])
    ∧ (∀ s : String, startsWithBrace (jsTrim s) = false →
      (parseKeyValuePairs jp (Option.some s) name).1 ≠ Option.some []) := by
  have refine_eq : ∀ s : String, startsWithBrace (jsTrim s) = false →
      parseKeyValuePairs jp (Option.some s) name
        = (strRecord (specParseDelim (Option.some s) name).1,
           (specParseDelim (Option.some s) name).2) := by
    intro s hb
    by_cases he : jsTrim s = ""
    · simp [parseKeyValuePairs, specParseDelim, he, strRecord]
    · have hd := delimParse_eq_spec s name he
      simp [parseKeyValuePairs, he, hb, ← hd]
  refine ⟨refine_eq, rfl, rfl, rfl, fun s hb h => ?_⟩
  rw [refine_eq s hb] at h
  have h1 : strRecord (specParseDelim (Option.some s) name).1 = Option.some [] := h
  rcases hsp : (specParseDelim (Option.some s) name).1 with _ | m
  · rw [hsp] at h1
    exact Option.noConfusion h1
  · rw [hsp] at h1
    have hm : m.map (fun p => (p.1, Json.str p.2)) = [] := by
      simpa [strRecord] using h1
    rw [List.map_eq_nil_iff] at hm
    rw [hm] at hsp
    exact specParseDelim_ne_some_nil (Option.some s) name hsp

/-- C8 witness: the contract applied to a concrete delimiter-format
input with a malformed middle segment. -/
theorem parser_delimiter_contract_witness :
    parseKeyValuePairs (fun _ => Option.none) (Option.some "k1=v1; junk ; k2 = v2 ") "headers"
      = (strRecord (specParseDelim (Option.some "k1=v1; junk ; k2 = v2 ") "headers").1,
         (specParseDelim (Option.some "k1=v1; junk ; k2 = v2 ") "headers").2)
    ∧ parseKeyValuePairs (fun _ => Option.none) (Option.some "k1=v1; junk ; k2 = v2 ") "headers"
      = (Option.some [("k1", Json.str "v1"), ("k2", Json.str "v2")],
         ["Skipping invalid headers pair: junk"]) :=
  ⟨(parser_delimiter_contract (fun _ => Option.none) "headers").1
      "k1=v1; junk ; k2 = v2 " (by decide), by rfl⟩

/-- Updating a key and then looking it up yields the new value. -/
theorem lookupA_upsertA {α : Type} (m : List (String × α)) (k : String) (v : α) :
    lookupA (upsertA m k v) k = Option.some v := by
  induction m with
  | nil => simp [upsertA, lookupA]
  | cons p rest ih =>
    obtain ⟨k', v'⟩ := p
    by_cases h : k' = k
    · simp [upsertA, lookupA, h]
    · simp [upsertA, lookupA, h, ih]

/-- C9: basic authentication with a missing username or password (and
bearer authentication with a missing token) fails with the
configuration error before any request is issued (zero attempts); and
whenever an Authorization header is synthesized, it is written into the
merged header record after the caller headers are spread in, so looking
up `Authorization` in the headers actually sent always yields the
synthesized value, whatever the caller supplied. -/
theorem auth_config_and_header_priority :
    (∀ (opts : DlOptions) (world : Nat → AttemptOutcome),
      opts.authType = "basic" → (opts.authUsername = "" ∨ opts.authPassword = "") →
      (downloadAsStream opts world).attemptsMade = 0
      ∧ (downloadAsStream opts world).result
          = Except.error (DlError.config
              "auth-username and auth-password are required for basic authentication"))
    ∧ (∀ (opts : DlOptions) (world : Nat → AttemptOutcome),
      opts.authType = "bearer" → opts.authToken = "" →
      (downloadAsStream opts world).attemptsMade = 0
      ∧ (downloadAsStream opts world).result
          = Except.error (DlError.config
              "auth-token is required for bearer authentication"))
    ∧ (∀ (opts : DlOptions) (world : Nat → AttemptOutcome) (h : String),
      generateAuthHeader opts.authType opts.authUsername opts.authPassword opts.authToken
        = Except.ok (Option.some h) →
      lookupA (downloadAsStream opts world).finalHeaders "Authorization"
        = Option.some (Json.str h)) := by
  refine ⟨?_, ?_, ?_⟩
  · intro opts world ht hcred
    have hg : generateAuthHeader opts.authType opts.authUsername opts.authPassword opts.authToken
        = Except.error "auth-username and auth-password are required for basic authentication" := by
      rw [ht]
      simp [generateAuthHeader, hcred]
    constructor <;> simp [downloadAsStream, hg]
  · intro opts world ht htok
    have hg : generateAuthHeader opts.authType opts.authUsername opts.authPassword opts.authToken
        = Except.error "auth-token is required for bearer authentication" := by
      rw [ht]
      simp [generateAuthHeader, htok]
    constructor <;> simp [downloadAsStream, hg]
  · intro opts world h hg
    unfold downloadAsStream
    rw [hg]
    simp only []
    split
    · simpa using lookupA_upsertA opts.headers "Authorization" (Json.str h)
    · split
      · simpa using lookupA_upsertA opts.headers "Authorization" (Json.str h)
      · simpa using lookupA_upsertA opts.headers "Authorization" (Json.str h)

/-- Basic auth with only the username supplied. -/
def c9BasicOpts : DlOptions :=
  { url := "https://example.com/file", method := "GET", headers := [],
    data := Option.none, timeout := 900000, enableRetry := false,
    authType := "basic", authUsername := "user", authPassword := "", authToken := "" }

/-- Bearer auth with no token supplied. -/
def c9BearerOpts : DlOptions :=
  { c9BasicOpts with authType := "bearer", authUsername := "", authToken := "" }

/-- Bearer auth with a token, against caller headers that try to supply
their own `Authorization` value. -/
def c9TokenOpts : DlOptions :=
  { c9BasicOpts with
    authType := "bearer"
    authUsername := ""
    headers := [("Authorization", Json.str "Basic caller-supplied")]
    authToken := "sekrit" }

/-- C9 witness: the three parts applied at concrete options against an
always-200 endpoint. -/
theorem auth_config_and_header_priority_witness :
    ((downloadAsStream c9BasicOpts (fun _ => AttemptOutcome.resp resp200)).attemptsMade = 0
      ∧ (downloadAsStream c9BasicOpts (fun _ => AttemptOutcome.resp resp200)).result
          = Except.error (DlError.config
              "auth-username and auth-password are required for basic authentication"))
    ∧ ((downloadAsStream c9BearerOpts (fun _ => AttemptOutcome.resp resp200)).attemptsMade = 0)
    ∧ lookupA (downloadAsStream c9TokenOpts
          (fun _ => AttemptOutcome.resp resp200)).finalHeaders "Authorization"
        = Option.some (Json.str "Bearer sekrit") :=
  ⟨auth_config_and_header_priority.1 c9BasicOpts (fun _ => AttemptOutcome.resp resp200)
      rfl (Or.inr rfl),
   (auth_config_and_header_priority.2.1 c9BearerOpts (fun _ => AttemptOutcome.resp resp200)
      rfl rfl).1,
   auth_config_and_header_priority.2.2 c9TokenOpts (fun _ => AttemptOutcome.resp resp200)
      "Bearer sekrit" (by rfl)⟩

/-- A baseline concrete invocation: GET with all optional inputs unset. -/
def sampleInputs : Inputs :=
  { url := "https://example.com/file", s3Bucket := "bucket", s3Key := "key",
    method := "", headersInput := "", postData := "", timeout := 900000,
    enableRetry := false, authType := "", authUsername := "", authPassword := "",
    authToken := "", bucketOwner := "", acl := "", storageClass := "",
    contentTypeOverride := "", cacheControl := "", metadataInput := "",
    tagsInput := "", ifNotExists := false }

/-- A baseline benign environment: the object is absent, every request
gets the 200 response, the store upload succeeds with an ETag, and the
body arrives as two chunks totalling 3 bytes. -/
def sampleWorld : World :=
  { jsonParse := fun _ => Option.none, head := HeadOutcome.notFound,
    attempts := fun _ => AttemptOutcome.resp resp200,
    store := Except.ok (Option.some "\"etag123\""), bodyChunks := [[1, 2], [3]] }

/-- When the transfer path is taken (the skip flag is off, or the
existence check reported false), `run` is `runTransfer` with an event
prefix that contains neither an HTTP request nor a store upload. -/
theorem run_transfer_path (inp : Inputs) (w : World)
    (hpath : inp.ifNotExists = false ∨ objectExists w.head = Except.ok false) :
    ∃ ev0 : List Event, run inp w = runTransfer inp w ev0
      ∧ Event.s3Upload ∉ ev0 ∧ Event.httpRequest ∉ ev0 := by
  cases hb : inp.ifNotExists with
  | false => exact ⟨[], by simp [run, hb], by decide, by decide⟩
  | true =>
    rcases hpath with hf | hh
    · exact absurd (hf.symm.trans hb) (by decide)
    · exact ⟨[Event.headObject], by simp [run, hb, hh], by decide, by decide⟩

/-- If the stream upload (as called by the orchestrator, with the skip
flag off) returns successfully, the store write succeeded and the
result carries the store's ETag (empty string when the store reported
none), the canonical destination URL, and `objectExisted = false`. -/
theorem uploadStreamToS3_ok (opts : UploadOptions) (head : HeadOutcome)
    (store : Except String (Option String)) (upOk : UploadResult)
    (h : (uploadStreamToS3 opts false head store).1 = Except.ok upOk) :
    ∃ etagOpt : Option String, store = Except.ok etagOpt
      ∧ upOk = { etag := etagOpt.getD "",
                 s3Url := "s3://" ++ opts.bucket ++ "/" ++ opts.key,
                 objectExisted := false } := by
  rcases hacl : validateAcl opts.acl with e | a
  · simp [uploadStreamToS3, hacl] at h
  · rcases hsc : validateStorageClass opts.storageClass with e | c
    · simp [uploadStreamToS3, hacl, hsc] at h
    · rcases hst : store with e | etagOpt
      · simp [uploadStreamToS3, hacl, hsc, hst] at h
      · refine ⟨etagOpt, rfl, ?_⟩
        simp [uploadStreamToS3, hacl, hsc, hst] at h
        exact h.symm

/-- A successful transfer leg implies: the download returned, both
upload validations passed, and the store write succeeded. -/
theorem runTransfer_success_inv (inp : Inputs) (w : World) (ev0 : List Event)
    (h : (runTransfer inp w ev0).failed = Option.none) :
    ∃ (ok : DlOk) (a c etagOpt : Option String),
      (runDl inp w).result = Except.ok ok
      ∧ validateAcl (strOpt inp.acl) = Except.ok a
      ∧ validateStorageClass (Option.some (effStorageClass inp)) = Except.ok c
      ∧ w.store = Except.ok etagOpt := by
  rcases hdl : (runDl inp w).result with e | ok
  · simp [runTransfer, hdl] at h
  · rcases hacl : validateAcl (strOpt inp.acl) with e | a
    · have hup : (uploadStreamToS3 (mkUploadOptions inp w ok) false w.head w.store).1
          = Except.error e := by
        simp [uploadStreamToS3, mkUploadOptions, hacl]
      simp [runTransfer, hdl, hup] at h
    · rcases hsc : validateStorageClass (Option.some (effStorageClass inp)) with e | c
      · have hup : (uploadStreamToS3 (mkUploadOptions inp w ok) false w.head w.store).1
            = Except.error e := by
          simp [uploadStreamToS3, mkUploadOptions, hacl, hsc]
        simp [runTransfer, hdl, hup] at h
      · rcases hst : w.store with e | etagOpt
        · have hup : (uploadStreamToS3 (mkUploadOptions inp w ok) false w.head w.store).1
              = Except.error ("Failed to upload to S3: " ++ e) := by
            simp [uploadStreamToS3, mkUploadOptions, hacl, hsc, hst]
          simp [runTransfer, hdl, hup] at h
        · exact ⟨ok, a, c, etagOpt, rfl, rfl, rfl, rfl⟩

/-- Full characterization of a successful transfer leg: the exact
outputs, events, warnings and success status. -/
theorem runTransfer_success_spec (inp : Inputs) (w : World) (ev0 : List Event)
    (ok : DlOk) (a c etagOpt : Option String)
    (hdl : (runDl inp w).result = Except.ok ok)
    (hacl : validateAcl (strOpt inp.acl) = Except.ok a)
    (hsc : validateStorageClass (Option.some (effStorageClass inp)) = Except.ok c)
    (hst : w.store = Except.ok etagOpt) :
    runTransfer inp w ev0 =
      { outputs := [("status-code", toString ok.statusCode),
                    ("content-length", toString
                      ((ByteCountingStream.feed ByteCountingStream.new
                          w.bodyChunks).getBytesTransferred)),
                    ("s3-url", "s3://" ++ inp.s3Bucket ++ "/" ++ inp.s3Key),
                    ("s3-etag", etagOpt.getD ""), ("object-existed", "false")],
        events := ev0 ++ List.replicate (runDl inp w).attemptsMade Event.httpRequest
                    ++ [Event.s3Upload],
        warnings :=
          if ok.contentLengthHeader > 0
              ∧ (ByteCountingStream.feed ByteCountingStream.new
                  w.bodyChunks).getBytesTransferred ≠ ok.contentLengthHeader then
            ["Bytes transferred ("
              ++ toString ((ByteCountingStream.feed ByteCountingStream.new
                    w.bodyChunks).getBytesTransferred)
              ++ ") differs from Content-Length header ("
              ++ toString ok.contentLengthHeader ++ ")"]
          else [],
        failed := Option.none } := by
  have hup : uploadStreamToS3 (mkUploadOptions inp w ok) false w.head w.store
      = (Except.ok { etag := etagOpt.getD "",
                     s3Url := "s3://" ++ inp.s3Bucket ++ "/" ++ inp.s3Key,
                     objectExisted := false }, [Event.s3Upload]) := by
    simp [uploadStreamToS3, mkUploadOptions, hacl, hsc, hst]
  simp [runTransfer, hdl, hup]

/-- A failing transfer leg emits no outputs. -/
theorem runTransfer_outputs_of_failed (inp : Inputs) (w : World) (ev0 : List Event)
    (h : (runTransfer inp w ev0).failed ≠ Option.none) :
    (runTransfer inp w ev0).outputs = [] := by
  rcases hdl : (runDl inp w).result with e | ok
  · simp [runTransfer, hdl]
  · rcases hup : (uploadStreamToS3 (mkUploadOptions inp w ok) false w.head w.store).1
        with e | upOk
    · simp [runTransfer, hdl, hup]
    · exfalso
      apply h
      simp [runTransfer, hdl, hup]

/-- C6: every failing invocation emits no output values at all — the
outputs list is empty whenever the failure signal is set, so a
partially completed transfer (downloaded but not uploaded) is never
reported with a byte count or an integrity tag. -/
theorem no_outputs_on_failure (inp : Inputs) (w : World)
    (h : (run inp w).failed ≠ Option.none) : (run inp w).outputs = [] := by
  cases hb : inp.ifNotExists with
  | false =>
    rw [show run inp w = runTransfer inp w [] from by simp [run, hb]] at h ⊢
    exact runTransfer_outputs_of_failed inp w [] h
  | true =>
    rcases hh : objectExists w.head with e | b
    · simp [run, hb, hh]
    · cases b with
      | true =>
        exfalso
        apply h
        simp [run, hb, hh]
      | false =>
        rw [show run inp w = runTransfer inp w [Event.headObject]
            from by simp [run, hb, hh]] at h ⊢
        exact runTransfer_outputs_of_failed inp w [Event.headObject] h

/-- The skip flag turned on. -/
def skipInputs : Inputs := { sampleInputs with ifNotExists := true }

/-- An environment in which the destination object already exists. -/
def foundWorld : World := { sampleWorld with head := HeadOutcome.found }

/-- An environment whose existence check fails with a store error. -/
def headFailWorld : World := { sampleWorld with head := HeadOutcome.failure "AccessDenied" }

/-- C6 witness: a failing invocation (existence check denied) with no
outputs. -/
theorem no_outputs_on_failure_witness :
    (run skipInputs headFailWorld).failed ≠ Option.none
    ∧ (run skipInputs headFailWorld).outputs = [] := by
  have hv : (run skipInputs headFailWorld).failed
      = Option.some "Action failed: AccessDenied" := rfl
  have hne : (run skipInputs headFailWorld).failed ≠ Option.none := by
    rw [hv]
    intro hcon
    exact Option.noConfusion hcon
  exact ⟨hne, no_outputs_on_failure skipInputs headFailWorld hne⟩

/-- C10: on the skip path (skip flag set and the object already there)
the five outputs are exactly the literals `status-code = "0"`,
`content-length = "0"`, `s3-url = "s3://bucket/key"`, `s3-etag = ""`
and `object-existed = "true"` — in particular the reported HTTP status
code is the string "0", which no real HTTP response can produce — and
the invocation succeeds. -/
theorem skip_path_literal_outputs (inp : Inputs) (w : World)
    (hf : inp.ifNotExists = true) (hh : objectExists w.head = Except.ok true) :
    (run inp w).outputs
      = [("status-code", "0"), ("content-length", "0"),
         ("s3-url", "s3://" ++ inp.s3Bucket ++ "/" ++ inp.s3Key),
         ("s3-etag", ""), ("object-existed", "true")]
    ∧ (run inp w).failed = Option.none := by
  constructor <;> simp [run, hf, hh, skipOutputs]

/-- C10 witness: the skip-path outputs at the concrete invocation. -/
theorem skip_path_literal_outputs_witness :
    (run skipInputs foundWorld).outputs
      = [("status-code", "0"), ("content-length", "0"), ("s3-url", "s3://bucket/key"),
         ("s3-etag", ""), ("object-existed", "true")]
    ∧ (run skipInputs foundWorld).failed = Option.none := by
  have h := skip_path_literal_outputs skipInputs foundWorld rfl rfl
  refine ⟨?_, h.2⟩
  rw [h.1]
  exact rfl

/-- An environment whose store write succeeds but reports no ETag. -/
def noEtagWorld : World := { sampleWorld with store := Except.ok Option.none }

/-- C2 counterexample: a transfer-path invocation in which the store
completes the upload without reporting an ETag succeeds with
`object-existed = "false"` and an EMPTY integrity tag (the source falls
back to `response.ETag || ''`), contradicting the claim that the
transfer path always yields a non-empty integrity tag. -/
theorem transfer_path_empty_etag :
    (run sampleInputs noEtagWorld).failed = Option.none
    ∧ ("object-existed", "false") ∈ (run sampleInputs noEtagWorld).outputs
    ∧ ("s3-etag", "") ∈ (run sampleInputs noEtagWorld).outputs := by
  refine ⟨rfl, ?_, ?_⟩ <;> decide

/-- C2 (amended): on the skip path no download request is issued and
the outputs show byte count 0, empty tag and `object-existed = true`;
on a successful transfer path the outputs show
`object-existed = false` and an integrity tag equal to the
store-reported ETag (the empty string exactly when the store reported
none). -/
theorem skip_and_transfer_invariant (inp : Inputs) (w : World) :
    (inp.ifNotExists = true → objectExists w.head = Except.ok true →
      Event.httpRequest ∉ (run inp w).events
      ∧ ("content-length", "0") ∈ (run inp w).outputs
      ∧ ("s3-etag", "") ∈ (run inp w).outputs
      ∧ ("object-existed", "true") ∈ (run inp w).outputs)
    ∧ ((inp.ifNotExists = false ∨ objectExists w.head = Except.ok false) →
      (run inp w).failed = Option.none →
      ∃ etagOpt : Option String, w.store = Except.ok etagOpt
        ∧ ("s3-etag", etagOpt.getD "") ∈ (run inp w).outputs
        ∧ ("object-existed", "false") ∈ (run inp w).outputs) := by
  constructor
  · intro hf hh
    refine ⟨?_, ?_, ?_, ?_⟩ <;> simp [run, hf, hh, skipOutputs]
  · intro hpath hsucc
    obtain ⟨ev0, hrun, hs3, hhttp⟩ := run_transfer_path inp w hpath
    rw [hrun] at hsucc ⊢
    obtain ⟨ok, a, c, etagOpt, hdl, hacl, hsc, hst⟩ := runTransfer_success_inv inp w ev0 hsucc
    have hspec := runTransfer_success_spec inp w ev0 ok a c etagOpt hdl hacl hsc hst
    refine ⟨etagOpt, hst, ?_, ?_⟩ <;> (rw [hspec]; simp)

/-- C2 witness: both halves of the amended invariant at concrete
invocations. -/
theorem skip_and_transfer_invariant_witness :
    (("s3-etag", "") ∈ (run skipInputs foundWorld).outputs
      ∧ ("object-existed", "true") ∈ (run skipInputs foundWorld).outputs)
    ∧ (∃ etagOpt : Option String, sampleWorld.store = Except.ok etagOpt
        ∧ ("s3-etag", etagOpt.getD "") ∈ (run sampleInputs sampleWorld).outputs
        ∧ ("object-existed", "false") ∈ (run sampleInputs sampleWorld).outputs) := by
  have h1 := (skip_and_transfer_invariant skipInputs foundWorld).1 rfl rfl
  have h2 := (skip_and_transfer_invariant sampleInputs sampleWorld).2 (Or.inl rfl) rfl
  exact ⟨⟨h1.2.2.1, h1.2.2.2⟩, h2⟩

/-- Inputs carrying an ACL value outside the canned list. -/
def invalidAclInputs : Inputs := { sampleInputs with acl := "public" }

/-- C3 counterexample: with the invalid ACL value "public" (and an
otherwise benign environment) the invocation does fail with the
configuration error, but the download HTTP request HAS been issued
before the failure — `validateAcl` runs inside the uploader, which the
orchestrator only calls after the download — contradicting "failure
before any network request (download or store call)". -/
theorem invalid_acl_after_download :
    (run invalidAclInputs sampleWorld).failed
      = Option.some "Action failed: Invalid ACL value: public"
    ∧ Event.httpRequest ∈ (run invalidAclInputs sampleWorld).events := by
  exact ⟨rfl, by decide⟩

/-- C3 (amended): on the transfer path, an unrecognized ACL or
storage-class value makes the invocation fail without any store call
being made — but only after the download request (the validation runs
inside the uploader); missing auth credentials (a configuration error
of the downloader) make it fail before ANY network request, with
neither a download request nor a store call. -/
theorem config_errors_before_store_call (inp : Inputs) (w : World)
    (hpath : inp.ifNotExists = false ∨ objectExists w.head = Except.ok false) :
    ((∃ e, validateAcl (strOpt inp.acl) = Except.error e)
        ∨ (∃ e, validateStorageClass (Option.some (effStorageClass inp)) = Except.error e) →
      (run inp w).failed ≠ Option.none ∧ Event.s3Upload ∉ (run inp w).events)
    ∧ (inp.authType = "basic" → (inp.authUsername = "" ∨ inp.authPassword = "") →
      (run inp w).failed ≠ Option.none ∧ Event.httpRequest ∉ (run inp w).events
        ∧ Event.s3Upload ∉ (run inp w).events) := by
  obtain ⟨ev0, hrun, hs3, hhttp⟩ := run_transfer_path inp w hpath
  constructor
  · intro hbad
    rw [hrun]
    have hupchar : ∀ ok : DlOk,
        (uploadStreamToS3 (mkUploadOptions inp w ok) false w.head w.store).2 = []
        ∧ ∃ e, (uploadStreamToS3 (mkUploadOptions inp w ok) false w.head w.store).1
            = Except.error e := by
      intro ok
      rcases hbad with ⟨e, he⟩ | ⟨e, he⟩
      · exact ⟨by simp [uploadStreamToS3, mkUploadOptions, he],
          e, by simp [uploadStreamToS3, mkUploadOptions, he]⟩
      · rcases hacl : validateAcl (strOpt inp.acl) with e2 | a
        · exact ⟨by simp [uploadStreamToS3, mkUploadOptions, hacl],
            e2, by simp [uploadStreamToS3, mkUploadOptions, hacl]⟩
        · exact ⟨by simp [uploadStreamToS3, mkUploadOptions, hacl, he],
            e, by simp [uploadStreamToS3, mkUploadOptions, hacl, he]⟩
    rcases hdl : (runDl inp w).result with de | ok
    · constructor
      · simp [runTransfer, hdl]
      · simp [runTransfer, hdl, List.mem_append, List.mem_replicate, hs3]
    · obtain ⟨h2, e, h1⟩ := hupchar ok
      constructor
      · simp [runTransfer, hdl, h1]
      · simp [runTransfer, hdl, h1, h2, List.mem_append, List.mem_replicate, hs3]
  · intro hat hcred
    have hg : generateAuthHeader inp.authType inp.authUsername inp.authPassword inp.authToken
        = Except.error
            "auth-username and auth-password are required for basic authentication" := by
      rw [hat]
      simp [generateAuthHeader, hcred]
    have hdlr : runDl inp w =
        { result := Except.error (DlError.config
            "auth-username and auth-password are required for basic authentication"),
          attemptsMade := 0, delays := [], finalHeaders := runHeaders inp w,
          bodySent := false } := by
      simp [runDl, downloadAsStream, mkDlOptions, hg]
    rw [hrun]
    refine ⟨?_, ?_, ?_⟩
    · simp [runTransfer, hdlr]
    · simp [runTransfer, hdlr, hhttp]
    · simp [runTransfer, hdlr, hs3]

/-- Inputs for basic auth with a username but no password. -/
def badAuthInputs : Inputs := { sampleInputs with authType := "basic", authUsername := "user" }

/-- C3 witness: the amended theorem at the invalid-ACL invocation and
at the missing-password invocation. -/
theorem config_errors_before_store_call_witness :
    ((run invalidAclInputs sampleWorld).failed ≠ Option.none
      ∧ Event.s3Upload ∉ (run invalidAclInputs sampleWorld).events)
    ∧ ((run badAuthInputs sampleWorld).failed ≠ Option.none
      ∧ Event.httpRequest ∉ (run badAuthInputs sampleWorld).events
      ∧ Event.s3Upload ∉ (run badAuthInputs sampleWorld).events) :=
  ⟨(config_errors_before_store_call invalidAclInputs sampleWorld (Or.inl rfl)).1
      (Or.inl ⟨"Invalid ACL value: public", rfl⟩),
   (config_errors_before_store_call badAuthInputs sampleWorld (Or.inl rfl)).2
      rfl (Or.inr rfl)⟩

/-- C5: on a successful transfer the reported `content-length` output
is the relay's observed byte total (independently of the
header-declared length — in particular a response with no
Content-Length header, sentinel 0, still reports the observed total,
with no error); a positive header value that differs from the observed
total produces a warning while the invocation still succeeds
(non-fatal), and no warning is produced when the header matches or was
absent. -/
theorem content_length_is_relay_count (inp : Inputs) (w : World)
    (ok : DlOk) (a c etagOpt : Option String)
    (hpath : inp.ifNotExists = false ∨ objectExists w.head = Except.ok false)
    (hdl : (runDl inp w).result = Except.ok ok)
    (hacl : validateAcl (strOpt inp.acl) = Except.ok a)
    (hsc : validateStorageClass (Option.some (effStorageClass inp)) = Except.ok c)
    (hst : w.store = Except.ok etagOpt) :
    (run inp w).failed = Option.none
    ∧ ("content-length", toString
        ((ByteCountingStream.feed ByteCountingStream.new
            w.bodyChunks).getBytesTransferred)) ∈ (run inp w).outputs
    ∧ (ok.contentLengthHeader > 0 →
        (ByteCountingStream.feed ByteCountingStream.new
            w.bodyChunks).getBytesTransferred ≠ ok.contentLengthHeader →
        (run inp w).warnings ≠ [])
    ∧ ((ByteCountingStream.feed ByteCountingStream.new
          w.bodyChunks).getBytesTransferred = ok.contentLengthHeader
        ∨ ok.contentLengthHeader = 0 →
        (run inp w).warnings = []) := by
  obtain ⟨ev0, hrun, _, _⟩ := run_transfer_path inp w hpath
  rw [hrun]
  have hspec := runTransfer_success_spec inp w ev0 ok a c etagOpt hdl hacl hsc hst
  rw [hspec]
  refine ⟨rfl, by simp, ?_, ?_⟩
  · intro h1 h2
    simp [h1, h2]
  · intro hor
    rcases hor with heq | h0
    · simp [heq]
    · simp [h0]

/-- An environment whose responses carry no Content-Length header. -/
def noLenWorld : World :=
  { sampleWorld with
    attempts := fun _ => AttemptOutcome.resp { resp200 with contentLength := Option.none } }

/-- C5 witness: with no Content-Length header and a 3-byte body, the
reported content length is "3", the run succeeds, and no warning is
emitted. -/
theorem content_length_is_relay_count_witness :
    (run sampleInputs noLenWorld).failed = Option.none
    ∧ ("content-length", "3") ∈ (run sampleInputs noLenWorld).outputs
    ∧ (run sampleInputs noLenWorld).warnings = [] := by
  have h := content_length_is_relay_count sampleInputs noLenWorld
    { statusCode := 200, contentLengthHeader := 0,
      contentType := Option.some "text/plain", contentEncoding := Option.none }
    Option.none (Option.some "STANDARD") (Option.some "\"etag123\"")
    (Or.inl rfl) rfl rfl rfl rfl
  exact ⟨h.1, h.2.1, h.2.2.2 (Or.inr rfl)⟩
